import Mathlib

/-!
# SoftDesk Support — verification of the authorization / visibility core

Shallow embedding of the SoftDesk Django REST backend (apps/projects,
apps/issues, apps/comments, apps/users, common/permissions.py,
common/validators.py).  Database tables are embedded as lists of rows in a
`St` record; Django querysets become list filters; view/serializer control
flow becomes `Except`-valued functions.  Each definition's doc comment names
the source function it embeds.
-/

namespace SoftDesk

/-- An authenticated (or anonymous) principal, as produced by the token
service: `request.user` with its `id`, `is_authenticated` and `is_staff`
flags. -/
structure Principal where
  id : Nat
  isAuthenticated : Bool
  isStaff : Bool
deriving DecidableEq, Repr

/-- Row of `projects.Project` (fields relevant to authorization:
`id`, `author_id`).  Presentation fields (name, description, type,
timestamps) play no role in any claim and are omitted. -/
structure Project where
  id : Nat
  authorId : Nat
deriving DecidableEq, Repr

/-- Row of `projects.Contributor` (the membership ledger): `user`,
`project`, `added_by`.  `created_at` is omitted. -/
structure Membership where
  userId : Nat
  projectId : Nat
  addedById : Nat
deriving DecidableEq, Repr

/-- Row of `issues.Issue` (authorization-relevant fields `id`, `project`,
`author`; title/description/priority/tag/status are plain data fields). -/
structure Issue where
  id : Nat
  projectId : Nat
  authorId : Nat
deriving DecidableEq, Repr

/-- Row of `comments.Comment` (`uuid` embedded as a `Nat` id, `issue`,
`author`). -/
structure Comment where
  id : Nat
  issueId : Nat
  authorId : Nat
deriving DecidableEq, Repr

/-- Row of `issues.IssueAssignee`: `issue`, `user`, `assigned_by`
(`assigned_at` omitted). -/
structure AssigneeRow where
  issueId : Nat
  userId : Nat
  assignedById : Nat
deriving DecidableEq, Repr

/-- Persistent state: the relational tables the core reads and writes. -/
structure St where
  projects : List Project
  memberships : List Membership
  issues : List Issue
  comments : List Comment
  assignees : List AssigneeRow
deriving DecidableEq, Repr

/-- Embeds `Contributor` rows for `(user, project)`:
`Contributor.objects.filter(project=p, user=u).exists()` and
`Project.is_contributor` (which tests the m2m through the same join
table). -/
def isMember (s : St) (userId projectId : Nat) : Bool :=
  s.memberships.any (fun m => m.userId = userId && m.projectId = projectId)

/-- Number of membership rows for `(user, project)` — used to state
uniqueness ("exactly one row"). -/
def memberRowCount (s : St) (userId projectId : Nat) : Nat :=
  (s.memberships.filter
    (fun m => m.userId = userId && m.projectId = projectId)).length

/-- Errors surfaced by serializers / models.  `validation field msg` is a
field-keyed (DRF/Django) ValidationError; `validationMsg` a non-field one;
`integrity` an uncaught database `IntegrityError`; `attributeErr` an
uncaught Python `AttributeError`. -/
inductive SaveErr
  | validation (field : String) (msg : String)
  | validationMsg (msg : String)
  | integrity
  | attributeErr (msg : String)
deriving DecidableEq, Repr

/-- Outcome of a detail (retrieve-by-id) request, after queryset lookup and
object-level permission checks. -/
inductive RetrieveOutcome
  | ok
  | notFound
  | forbidden
deriving DecidableEq, Repr

/-! ## common/permissions.py -/

/-- Object shapes accepted by `ProjectResolverMixin._get_project_from_obj`:
a Project (has `contributors` and `author`), an Issue (has `project`),
a Comment (has `issue`), or anything else. -/
inductive PermObj
  | projectObj (p : Project)
  | issueObj (i : Issue)
  | commentObj (c : Comment)
  | otherObj
deriving DecidableEq, Repr

/-- Embeds `ProjectResolverMixin._get_project_from_obj`, with the FK navigations
(`issue.project`, `comment.issue.project`) performed against the state.
Returns `none` (later mapped to Deny, never an exception) when the object
does not resolve to a project. -/
def getProjectFromObj (s : St) : PermObj → Option Project
  | PermObj.projectObj p => some p
  | PermObj.issueObj i => s.projects.find? (fun p => p.id = i.projectId)
  | PermObj.commentObj c =>
      (s.issues.find? (fun i => i.id = c.issueId)).bind
        (fun i => s.projects.find? (fun p => p.id = i.projectId))
  | PermObj.otherObj => none

/-- HTTP methods; `SAFE_METHODS` is GET/HEAD/OPTIONS. -/
inductive Method
  | get
  | head
  | options
  | post
  | put
  | patch
  | delete
deriving DecidableEq, Repr

/-- Embeds `rest_framework.permissions.SAFE_METHODS` membership. -/
def Method.isSafe : Method → Bool
  | Method.get => true
  | Method.head => true
  | Method.options => true
  | _ => false

/-- Embeds `StaffOrOwnerPermission.has_object_permission`: authenticated user
required, staff short-circuits to Allow, otherwise the resolved owner id
must equal the user id (a `none` owner denies). -/
def staffOrOwnerPerm (user : Option Principal) (ownerId : Option Nat) : Bool :=
  match user with
  | none => false
  | some u =>
      if !u.isAuthenticated then false
      else if u.isStaff then true
      else match ownerId with
        | none => false
        | some o => o = u.id

/-- Embeds `StaffOrAuthorPermission.get_owner_id` for our embedded objects: the
`author_id` column of the object acted on (`IsAuthorOrStaff`,
`IsProjectAuthor`, `IsCommentAuthorOrStaff` all use it). -/
def authorOwnerId : PermObj → Option Nat
  | PermObj.projectObj p => some p.authorId
  | PermObj.issueObj i => some i.authorId
  | PermObj.commentObj c => some c.authorId
  | PermObj.otherObj => none

/-- Embeds `IsAuthorOrStaff.has_object_permission` (also `IsProjectAuthor`,
`IsCommentAuthorOrStaff`, which only change the error message). -/
def isAuthorOrStaffPerm (user : Option Principal) (obj : PermObj) : Bool :=
  staffOrOwnerPerm user (authorOwnerId obj)

/-- Embeds `IsAuthorOrReadOnly.has_object_permission` (and its subclass
`IsIssueAuthor`): safe methods always allowed, writes gated by
staff-or-author. -/
def isAuthorOrReadOnlyPerm (user : Option Principal) (m : Method)
    (obj : PermObj) : Bool :=
  if m.isSafe then true else isAuthorOrStaffPerm user obj

/-- Embeds `IsProjectContributor.has_object_permission`: authenticated required;
staff short-circuits; the object resolves to its project (Deny when it does
not); the project author always passes; otherwise a membership row must
exist. -/
def isProjectContributorPerm (s : St) (user : Option Principal)
    (obj : PermObj) : Bool :=
  match user with
  | none => false
  | some u =>
      if !u.isAuthenticated then false
      else if u.isStaff then true
      else match getProjectFromObj s obj with
        | none => false
        | some p =>
            if p.authorId = u.id then true
            else isMember s u.id p.id

/-- Embeds `IsSelfOrAdmin.has_object_permission`: staff or the profile's own
user (owner id is the target user's pk). -/
def isSelfOrAdminPerm (user : Option Principal) (targetUserId : Nat) : Bool :=
  staffOrOwnerPerm user (some targetUserId)

/-! ## apps/projects/views.py — ProjectViewSet -/

/-- Actions of `ProjectViewSet` that matter to `get_queryset` /
`get_permissions` (DRF's `self.action`). -/
inductive ProjAction
  | list
  | retrieve
  | updateAct
  | destroy
  | contributors
  | removeContributorAct
  | issuesAct
  | issueDetail
deriving DecidableEq, Repr

/-- Embeds `ProjectViewSet.get_queryset`: unauthenticated gets nothing; staff see
all; non-staff on `list` see only authored projects; on every other action
they see authored-or-member projects (the `Exists` membership annotation).
The `select_related`/count annotations and `order_by` only shape the
payload and are not modelled. -/
def projectGetQueryset (s : St) (u : Principal) (a : ProjAction) :
    List Project :=
  if !u.isAuthenticated then []
  else if u.isStaff then s.projects
  else if a = ProjAction.list then
    s.projects.filter (fun p => p.authorId = u.id)
  else
    s.projects.filter (fun p => p.authorId = u.id || isMember s u.id p.id)

/-- Embeds `ProjectViewSet.get_permissions` reduced to the object-level check it
installs for each action (`IsAuthenticated` is part of every branch;
methods: `contributors` GET vs POST distinguished by the action argument
here, matching the source's `request.method` branch). -/
def projectObjectPerm (s : St) (u : Principal) (a : ProjAction)
    (contributorsMethodGet : Bool) (p : Project) : Bool :=
  if a = ProjAction.retrieve || a = ProjAction.issuesAct
      || a = ProjAction.issueDetail then
    isProjectContributorPerm s (some u) (PermObj.projectObj p)
  else if a = ProjAction.updateAct || a = ProjAction.destroy then
    isAuthorOrStaffPerm (some u) (PermObj.projectObj p)
  else if a = ProjAction.contributors then
    if contributorsMethodGet then
      isProjectContributorPerm s (some u) (PermObj.projectObj p)
    else
      isAuthorOrStaffPerm (some u) (PermObj.projectObj p)
  else if a = ProjAction.removeContributorAct then
    isAuthorOrStaffPerm (some u) (PermObj.projectObj p)
  else
    u.isAuthenticated

/-- Embeds `GET /projects/` — the list endpoint: permission is just
`IsAuthenticated`; the body is `get_queryset` under action `list`. -/
def projectList (s : St) (u : Principal) : List Project :=
  projectGetQueryset s u ProjAction.list

/-- Embeds `GET /projects/pk/` — DRF retrieve: `get_object` looks the pk up in
`get_queryset` (absent ⇒ 404), then `check_object_permissions` runs the
permissions for action `retrieve` (denied ⇒ 403). -/
def projectRetrieve (s : St) (u : Principal) (pid : Nat) : RetrieveOutcome :=
  if !u.isAuthenticated then RetrieveOutcome.forbidden
  else
    match (projectGetQueryset s u ProjAction.retrieve).find?
        (fun p => p.id = pid) with
    | none => RetrieveOutcome.notFound
    | some p =>
        if projectObjectPerm s u ProjAction.retrieve true p then
          RetrieveOutcome.ok
        else RetrieveOutcome.forbidden

/-- Embeds `ProjectViewSet.issue_detail` (`/projects/pid/issues/iid/`, GET):
`get_object()` looks the project up in the detail-scoped queryset (absent ⇒
404) and checks `IsProjectContributor` (denied ⇒ 403); then the issue is
fetched with `get_object_or_404(..., pk=iid, project=project)` (absent ⇒
404); GET then serializes it.  (The write branch adds the `IsIssueAuthor`
gate, not needed by the claims about this route.) -/
def projectNestedIssueGet (s : St) (u : Principal) (pid iid : Nat) :
    RetrieveOutcome :=
  if !u.isAuthenticated then RetrieveOutcome.forbidden
  else
    match (projectGetQueryset s u ProjAction.issueDetail).find?
        (fun p => p.id = pid) with
    | none => RetrieveOutcome.notFound
    | some p =>
        if isProjectContributorPerm s (some u) (PermObj.projectObj p) then
          match s.issues.find? (fun i => i.id = iid && i.projectId = p.id) with
          | none => RetrieveOutcome.notFound
          | some _ => RetrieveOutcome.ok
        else RetrieveOutcome.forbidden

/-! ## apps/issues/views.py — IssueViewSet -/

/-- Actions of `IssueViewSet` relevant to `get_queryset` /
`get_permissions`. -/
inductive IssAction
  | list
  | retrieve
  | updateAct
  | destroy
  | assigneesAct
  | removeAssignee
  | commentsAct
  | commentDetail
deriving DecidableEq, Repr

/-- Embeds `IssueViewSet.get_queryset`: staff see all; non-staff are scoped
**only** on the `list` action (project author or member via the `Exists`
annotation); on detail routes the queryset is deliberately left unfiltered
("let permissions return 403").  Prefetches/annotations/ordering are
payload-shaping only. -/
def issueGetQueryset (s : St) (u : Principal) (a : IssAction) : List Issue :=
  if u.isStaff then s.issues
  else if a = IssAction.list then
    s.issues.filter (fun i =>
      match s.projects.find? (fun p => p.id = i.projectId) with
      | none => false
      | some p => p.authorId = u.id || isMember s u.id i.projectId)
  else s.issues

/-- Embeds `GET /issues/` — permission `IsAuthenticated` only; body is the
list-scoped queryset. -/
def issueList (s : St) (u : Principal) : List Issue :=
  if !u.isAuthenticated then [] else issueGetQueryset s u IssAction.list

/-- Embeds `GET /issues/pk/` — DRF retrieve on `IssueViewSet`: `get_object` finds
the pk in the (unfiltered for non-staff) detail queryset, then
`check_object_permissions` runs `IsAuthenticated` + `IsProjectContributor`
(the `retrieve` branch of `get_permissions`). -/
def issueRetrieve (s : St) (u : Principal) (iid : Nat) : RetrieveOutcome :=
  if !u.isAuthenticated then RetrieveOutcome.forbidden
  else
    match (issueGetQueryset s u IssAction.retrieve).find?
        (fun i => i.id = iid) with
    | none => RetrieveOutcome.notFound
    | some i =>
        if isProjectContributorPerm s (some u) (PermObj.issueObj i) then
          RetrieveOutcome.ok
        else RetrieveOutcome.forbidden

/-! ## apps/projects/serializers.py — project creation, contributor add -/

/-- Embeds `ProjectWriteSerializer.create`: create the Project row with
`author` (request user, or the context override), then
`Contributor.objects.get_or_create(project=project, user=author,
defaults=dict(added_by=request.user))`.  The repository runs this without
an explicit `transaction.atomic` block; the transactional boundary comes
from the project settings (not in src), so the two writes are modelled as
one state transition per the spec's "created transactionally". -/
def projectCreate (s : St) (requestUserId : Nat) (authorId : Nat)
    (newPid : Nat) : St :=
  let p : Project := { id := newPid, authorId := authorId }
  let s1 : St := { s with projects := s.projects ++ [p] }
  if isMember s1 authorId newPid then s1
  else { s1 with memberships :=
          s1.memberships ++ [⟨authorId, newPid, requestUserId⟩] }

/-- Errors of the contributor-removal endpoint. -/
inductive RemoveErr
  | cannotRemoveAuthor
  | notFound
deriving DecidableEq, Repr

/-- Embeds `ProjectViewSet.remove_contributor`
(`DELETE /projects/pid/contributors/user_id/`), after the
author-or-staff permission gate: the project is `get_object()`'s result;
removing the project author is rejected with HTTP 400 before any lookup;
otherwise the membership row is fetched (404 when absent) and deleted.
An error outcome performs no write (the ledger is unchanged). -/
def removeContributor (s : St) (p : Project) (targetUserId : Nat) :
    Except RemoveErr St :=
  if targetUserId = p.authorId then Except.error RemoveErr.cannotRemoveAuthor
  else if isMember s targetUserId p.id then
    let kept := s.memberships.filter
      (fun m => !(m.userId = targetUserId && m.projectId = p.id))
    Except.ok { s with memberships := kept }
  else Except.error RemoveErr.notFound

/-- Embeds `ContributorWriteSerializer.validate`, after the username/email lookup
has resolved the target user: `Contributor.objects.filter(project=project,
user=user).exists()` raises the "already a contributor" ValidationError
(non-field). -/
def contributorValidate (s : St) (pid uid : Nat) : Except SaveErr Unit :=
  if isMember s uid pid then
    Except.error (SaveErr.validationMsg "Cet utilisateur est deja contributeur.")
  else Except.ok ()

/-- The INSERT issued by `ContributorWriteSerializer.create`
(`Contributor.objects.create`), with the storage-layer unique constraint
`uniq_contributor_user_project` from `Contributor.Meta`: a duplicate
`(user, project)` insert raises `IntegrityError`, which this serializer
does **not** catch. -/
def contributorInsert (s : St) (pid uid actorId : Nat) : Except SaveErr St :=
  if isMember s uid pid then Except.error SaveErr.integrity
  else Except.ok { s with memberships := s.memberships ++ [⟨uid, pid, actorId⟩] }

/-- The whole add-contributor operation as a single request executes
(`serializer.is_valid(raise_exception=True)` then `serializer.save()`):
validate against the current ledger, then insert. -/
def addContributor (s : St) (pid uid actorId : Nat) : Except SaveErr St :=
  match contributorValidate s pid uid with
  | Except.error e => Except.error e
  | Except.ok _ => contributorInsert s pid uid actorId

/-! ## apps/issues/models.py + serializers.py — issue save -/

/-- Condition tested by `Issue.clean`: navigate the `project` FK and test
`self.project.is_contributor(self.author)` against the current membership
ledger. -/
def issueAuthorIsContributor (s : St) (i : Issue) : Bool :=
  match s.projects.find? (fun p => p.id = i.projectId) with
  | none => false
  | some p => isMember s i.authorId p.id

/-- Embeds `Issue.clean`: when both `project_id` and `author_id` are set (always
true in this embedding, where the FKs are plain `Nat`s), the author must
satisfy `project.is_contributor`, else a ValidationError keyed on
`author`. -/
def issueClean (s : St) (i : Issue) : Except SaveErr Unit :=
  if !issueAuthorIsContributor s i then
    Except.error (SaveErr.validation "author"
      "L auteur doit etre contributeur du projet.")
  else Except.ok ()

/-- Embeds `Issue.save`: `full_clean()` (field validation plus `clean()`) runs on
**every** save, then the row is written; a ValidationError aborts before
any write. -/
def issueSave (s : St) (i : Issue) : Except SaveErr St :=
  match issueClean s i with
  | Except.error e => Except.error e
  | Except.ok _ => Except.ok { s with issues := s.issues ++ [i] }

/-! ## apps/comments/models.py — comment save -/

/-- Embeds `Comment.clean` **as written in the source**: its first statement is
`super.clean()` — attribute access on the builtin `super` *type object*
(the parentheses of `super()` are missing) — which raises
`AttributeError` unconditionally; the author-must-be-contributor check
below that line is unreachable. -/
def commentClean (s : St) (c : Comment) : Except SaveErr Unit :=
  let _ := s
  let _ := c
  Except.error (SaveErr.attributeErr
    "type object has no attribute clean")

/-- Condition the body of `Comment.clean` tests (below the faulty first
line): navigate `issue.project` and test
`project.is_contributor(author)`. -/
def commentAuthorIsContributor (s : St) (c : Comment) : Bool :=
  match s.issues.find? (fun i => i.id = c.issueId) with
  | none => false
  | some i =>
      match s.projects.find? (fun p => p.id = i.projectId) with
      | none => false
      | some p => isMember s c.authorId p.id

/-- The membership check `Comment.clean` was written to perform (its
docstring: "ensure the author belongs to the issue's project
contributors"), i.e. the body that would run if the first line read
`super().clean()`. -/
def commentCleanIntended (s : St) (c : Comment) : Except SaveErr Unit :=
  if !commentAuthorIsContributor s c then
    Except.error (SaveErr.validation "author"
      "L auteur doit etre contributeur du projet.")
  else Except.ok ()

/-- Embeds `Comment.save`: `full_clean()` (which calls `clean()`) then the
write.  Any exception out of `clean()` aborts the save; non-ValidationError
exceptions propagate unhandled. -/
def commentSave (s : St) (c : Comment) : Except SaveErr St :=
  match commentClean s c with
  | Except.error e => Except.error e
  | Except.ok _ => Except.ok { s with comments := s.comments ++ [c] }

/-- Embeds `Comment.save` as it would behave with the intended `clean` body
(used to state what the claim expects of the service layer). -/
def commentSaveIntended (s : St) (c : Comment) : Except SaveErr St :=
  match commentCleanIntended s c with
  | Except.error e => Except.error e
  | Except.ok _ => Except.ok { s with comments := s.comments ++ [c] }

/-! ## apps/comments/views.py — CommentViewSet (global routes) -/

/-- Embeds `CommentViewSet.get_queryset` (used by both `list` and `retrieve`,
there is no action branch): staff see all comments; non-staff see only
`filter(author=user)` — their own authored comments. -/
def commentGetQueryset (s : St) (u : Principal) : List Comment :=
  if u.isStaff then s.comments
  else s.comments.filter (fun c => c.authorId = u.id)

/-- Embeds `GET /comments/` — permission `IsAuthenticated`; body is
`get_queryset`. -/
def commentList (s : St) (u : Principal) : List Comment :=
  if !u.isAuthenticated then [] else commentGetQueryset s u

/-- Embeds `GET /comments/uuid/` — DRF retrieve: lookup in `get_queryset`
(absent ⇒ 404), then `IsCommentAuthorOrStaff` object check (denied ⇒
403). -/
def commentRetrieve (s : St) (u : Principal) (cid : Nat) : RetrieveOutcome :=
  if !u.isAuthenticated then RetrieveOutcome.forbidden
  else
    match (commentGetQueryset s u).find? (fun c => c.id = cid) with
    | none => RetrieveOutcome.notFound
    | some c =>
        if isAuthorOrStaffPerm (some u) (PermObj.commentObj c) then
          RetrieveOutcome.ok
        else RetrieveOutcome.forbidden

/-- Embeds `IssueViewSet.comments` GET (`/issues/iid/comments/`): the issue is
`get_object()` on the unfiltered detail queryset with the
`IsProjectContributor` gate (comments branch of `get_permissions`); the
body lists every comment of the issue.  Returns `none` for a 403/404
outcome, `some` with the scoped list on success. -/
def nestedCommentList (s : St) (u : Principal) (iid : Nat) :
    Option (List Comment) :=
  if !u.isAuthenticated then none
  else
    match (issueGetQueryset s u IssAction.commentsAct).find?
        (fun i => i.id = iid) with
    | none => none
    | some i =>
        if isProjectContributorPerm s (some u) (PermObj.issueObj i) then
          some (s.comments.filter (fun c => c.issueId = i.id))
        else none

/-! ## common/validators.py + apps/users — birth-date rule -/

/-- A calendar date as `datetime.date`: `(year, month, day)`. -/
structure MDate where
  year : Int
  month : Nat
  day : Nat
deriving DecidableEq, Repr

/-- Python tuple comparison `(a.month, a.day) < (b.month, b.day)` used in
`calculate_age`. -/
def mdLt (a b : Nat × Nat) : Bool :=
  a.1 < b.1 || (a.1 = b.1 && a.2 < b.2)

/-- Embeds `date` comparison `birth_date > today` (lexicographic on
year, month, day). -/
def dateGt (a b : MDate) : Bool :=
  b.year < a.year
    || (b.year = a.year
        && (b.month < a.month || (b.month = a.month && b.day < a.day)))

/-- Embeds `common.validators.calculate_age`:
`today.year - birth.year - ((today.month, today.day) < (birth.month,
birth.day))`. -/
def calculateAge (birth today : MDate) : Int :=
  today.year - birth.year
    - (if mdLt (today.month, today.day) (birth.month, birth.day) then 1 else 0)

/-- Embeds `common.validators.MIN_SIGNUP_AGE_YEARS`. -/
def MIN_SIGNUP_AGE_YEARS : Int := 15

/-- Embeds `common.validators.validate_birth_date_min_age`: future dates raise
`ValueError`, ages under the minimum raise `ValueError` (the caller keys
them on `birth_date`). -/
def validate_birth_date_min_age (birth today : MDate) : Except String Unit :=
  if dateGt birth today then
    Except.error "La date de naissance ne peut pas etre dans le futur."
  else if calculateAge birth today < MIN_SIGNUP_AGE_YEARS then
    Except.error "Vous devez avoir au moins 15 ans pour vous inscrire."
  else Except.ok ()

/-- Embeds `User.clean` (apps/users/models.py): `birth_date is None` raises a
ValidationError keyed `birth_date`; otherwise
`validate_birth_date_min_age`'s `ValueError` is re-raised as a
ValidationError keyed `birth_date`. -/
def userClean (birthDate : Option MDate) (today : MDate) :
    Except SaveErr Unit :=
  match birthDate with
  | none =>
      Except.error (SaveErr.validation "birth_date"
        "La date de naissance est requise.")
  | some b =>
      match validate_birth_date_min_age b today with
      | Except.error msg => Except.error (SaveErr.validation "birth_date" msg)
      | Except.ok _ => Except.ok ()

/-- Embeds `User.save`: `full_clean()` always runs (hence `clean()`), so every
save path — API, admin, shell — goes through `userClean` before the row is
written.  Only the birth-date outcome is modelled. -/
def userModelSave (birthDate : Option MDate) (today : MDate) :
    Except SaveErr Unit :=
  userClean birthDate today

/-- The API boundary (`UserSerializer`): `birth_date` is a required model
field, so a missing/null value fails DRF field validation keyed
`birth_date`; a present value runs `validate_birth_date` which delegates
to `validate_birth_date_min_age`; on success `create()` calls
`user.save()` (which runs `userClean` again). -/
def userSerializerCreate (birthDate : Option MDate) (today : MDate) :
    Except SaveErr Unit :=
  match birthDate with
  | none =>
      Except.error (SaveErr.validation "birth_date" "Ce champ est obligatoire.")
  | some b =>
      match validate_birth_date_min_age b today with
      | Except.error msg => Except.error (SaveErr.validation "birth_date" msg)
      | Except.ok _ => userModelSave (some b) today

/-! ## apps/issues/serializers.py — IssueAssigneeAddSerializer -/

/-- Assignee rows for `(issue, user)` — the duplicate test
`IssueAssignee.objects.filter(issue=issue, user=user).exists()`. -/
def isAssigned (s : St) (iid uid : Nat) : Bool :=
  s.assignees.any (fun a => a.issueId = iid && a.userId = uid)

/-- Number of assignment rows for `(issue, user)` — used to state
uniqueness. -/
def assigneeRowCount (s : St) (iid uid : Nat) : Nat :=
  (s.assignees.filter (fun a => a.issueId = iid && a.userId = uid)).length

/-- Embeds `IssueAssigneeAddSerializer.validate_user`: the resolved user must be
a contributor of `issue.project`. -/
def assigneeValidateUser (s : St) (i : Issue) (uid : Nat) :
    Except SaveErr Unit :=
  if !isMember s uid i.projectId then
    Except.error (SaveErr.validation "user"
      "L utilisateur doit etre contributeur du projet.")
  else Except.ok ()

/-- Embeds `IssueAssigneeAddSerializer.validate`: duplicate `(issue, user)` rows
are rejected with a ValidationError keyed `user`. -/
def assigneeValidate (s : St) (i : Issue) (uid : Nat) : Except SaveErr Unit :=
  if isAssigned s i.id uid then
    Except.error (SaveErr.validation "user"
      "Cet utilisateur est deja assigne a cet issue.")
  else Except.ok ()

/-- Embeds `IssueAssigneeAddSerializer.create`: `IssueAssignee.objects.create`
under the `uniq_issue_assignee` constraint, with `IntegrityError` caught
and converted to the same ValidationError keyed `user` ("in case of race
conditions, keep error consistent"). -/
def assigneeCreate (s : St) (i : Issue) (uid actorId : Nat) :
    Except SaveErr St :=
  if isAssigned s i.id uid then
    Except.error (SaveErr.validation "user"
      "Cet utilisateur est deja assigne a cet issue.")
  else Except.ok { s with assignees := s.assignees ++ [⟨i.id, uid, actorId⟩] }

/-- One add-assignee request (`POST /issues/iid/assignees/`), after the
permission gates: field validation, cross-field validation, then the
insert. -/
def addAssignee (s : St) (i : Issue) (uid actorId : Nat) :
    Except SaveErr St :=
  match assigneeValidateUser s i uid with
  | Except.error e => Except.error e
  | Except.ok _ =>
      match assigneeValidate s i uid with
      | Except.error e => Except.error e
      | Except.ok _ => assigneeCreate s i uid actorId

/-! ## Concrete fixtures (used by witnesses and counterexamples)

A single project `prj1` authored by user 1 ("alice"), with user 2 ("bob")
added as a contributor, one issue and one comment authored by alice; user 3
("dave") is a stranger, user 9 ("staffAdmin") is staff. -/

/-- Non-staff authenticated user 1, author of `prj1`. -/
def alice : Principal := ⟨1, true, false⟩

/-- Non-staff authenticated user 2, contributor (not author) of `prj1`. -/
def bob : Principal := ⟨2, true, false⟩

/-- Non-staff authenticated user 3, not a member of any project. -/
def dave : Principal := ⟨3, true, false⟩

/-- Staff principal (user 9). -/
def staffAdmin : Principal := ⟨9, true, true⟩

/-- Project 1, authored by user 1. -/
def prj1 : Project := ⟨1, 1⟩

/-- Issue 10 in project 1, authored by user 1. -/
def iss10 : Issue := ⟨10, 1, 1⟩

/-- Comment 100 on issue 10, authored by user 1. -/
def cmt100 : Comment := ⟨100, 10, 1⟩

/-- Base state: project 1 (author 1), memberships for users 1 and 2,
issue 10 and comment 100 both authored by user 1. -/
def stBase : St :=
  { projects := [prj1]
    memberships := [⟨1, 1, 1⟩, ⟨2, 1, 1⟩]
    issues := [iss10]
    comments := [cmt100]
    assignees := [] }

/-- Base state after removing user 2's membership from project 1. -/
def stAfterRemove : St :=
  { projects := [prj1]
    memberships := [⟨1, 1, 1⟩]
    issues := [iss10]
    comments := [cmt100]
    assignees := [] }

/-- Base state after adding user 3 to project 1 (added by user 1). -/
def stAfterAdd : St :=
  { projects := [prj1]
    memberships := [⟨1, 1, 1⟩, ⟨2, 1, 1⟩, ⟨3, 1, 1⟩]
    issues := [iss10]
    comments := [cmt100]
    assignees := [] }

/-- A fresh comment by contributor user 2 on issue 10 (used to show what a
legal comment save was supposed to do). -/
def cmtNew : Comment := ⟨101, 10, 2⟩

/-- Issue 11 in project 1, authored by contributor user 2. -/
def issBob : Issue := ⟨11, 1, 2⟩

/-- Base state after user 2 saved issue 11. -/
def stWithBobIssue : St :=
  { projects := [prj1]
    memberships := [⟨1, 1, 1⟩, ⟨2, 1, 1⟩]
    issues := [iss10, issBob]
    comments := [cmt100]
    assignees := [] }

/-- State after user 2's membership was then removed: issue 11 still
exists but its author is no longer a member. -/
def stOrphan : St :=
  { projects := [prj1]
    memberships := [⟨1, 1, 1⟩]
    issues := [iss10, issBob]
    comments := [cmt100]
    assignees := [] }

/-! ## Theorems -/

/-- Helper: the issue queryset is the whole table on the `retrieve` action
(staff and non-staff alike — the non-staff scoping only applies to
`list`). -/
theorem issueGetQueryset_retrieve_eq (s : St) (u : Principal) :
    issueGetQueryset s u IssAction.retrieve = s.issues := by
  unfold issueGetQueryset
  split
  · rfl
  · simp

/-- Helper: same for the `comments` action of the issue viewset. -/
theorem issueGetQueryset_comments_eq (s : St) (u : Principal) :
    issueGetQueryset s u IssAction.commentsAct = s.issues := by
  unfold issueGetQueryset
  split
  · rfl
  · simp

/-- Helper: for a non-staff authenticated user, the project queryset on a
non-list action is the author-or-member filter. -/
theorem projectGetQueryset_nonlist_eq (s : St) (u : Principal)
    (hAuth : u.isAuthenticated = true) (hStaff : u.isStaff = false)
    (a : ProjAction) (ha : a ≠ ProjAction.list) :
    projectGetQueryset s u a
      = s.projects.filter
          (fun p => p.authorId = u.id || isMember s u.id p.id) := by
  unfold projectGetQueryset
  simp [hAuth, hStaff, ha]

/-- Helper: an authenticated author-or-member passes
`IsProjectContributor` on the project itself. -/
theorem contributorPerm_of_author_or_member (s : St) (u : Principal)
    (p : Project) (hAuth : u.isAuthenticated = true)
    (h : p.authorId = u.id ∨ isMember s u.id p.id = true) :
    isProjectContributorPerm s (some u) (PermObj.projectObj p) = true := by
  by_cases hs : u.isStaff
  · simp [isProjectContributorPerm, getProjectFromObj, hAuth, hs]
  · rcases h with h | h <;>
      simp [isProjectContributorPerm, getProjectFromObj, hAuth, hs, h]

/-- Claim C1 is false on the code: user 2 is a member (not author) of
project 1, so per the claim project 1 must appear in their list and the
two views must agree; in fact `retrieve` succeeds while the list — which
`ProjectViewSet.get_queryset` restricts to `author=user` on the `list`
action — is empty. -/
theorem C1_counterexample :
    isMember stBase bob.id prj1.id = true
  ∧ projectRetrieve stBase bob prj1.id = RetrieveOutcome.ok
  ∧ projectList stBase bob = [] :=
  ⟨by decide, by decide, by decide⟩

/-- Claim C1 amended: for a non-staff authenticated user U the project
list contains exactly the projects U authored, while retrieve succeeds
exactly on projects U authored **or** is a member of — so every listed
project is retrievable, but a member-not-author project is retrievable
without appearing in the list (list/retrieve divergence; staff see all in
both). -/
theorem C1_amended_visibility (s : St) (u : Principal)
    (hAuth : u.isAuthenticated = true) (hStaff : u.isStaff = false) :
    (∀ p : Project, p ∈ projectList s u ↔ p ∈ s.projects ∧ p.authorId = u.id)
  ∧ (∀ pid : Nat, projectRetrieve s u pid = RetrieveOutcome.ok ↔
      ∃ p : Project, p ∈ s.projects ∧ p.id = pid ∧
        (p.authorId = u.id ∨ isMember s u.id p.id = true)) := by
  have hq := projectGetQueryset_nonlist_eq s u hAuth hStaff
    ProjAction.retrieve (by simp)
  constructor
  · intro p
    simp [projectList, projectGetQueryset, hAuth, hStaff, List.mem_filter]
  · intro pid
    constructor
    · intro hok
      unfold projectRetrieve at hok
      cases hfind : (projectGetQueryset s u ProjAction.retrieve).find?
          (fun p => p.id = pid) with
      | none =>
          rw [hAuth] at hok
          rw [hfind] at hok
          simp at hok
      | some p =>
          have hmemf : p ∈ projectGetQueryset s u ProjAction.retrieve :=
            List.mem_of_find?_eq_some hfind
          have hpred := List.find?_some hfind
          rw [hq, List.mem_filter] at hmemf
          refine ⟨p, hmemf.1, by simpa using hpred, ?_⟩
          have h2 := hmemf.2
          simp only [Bool.or_eq_true, decide_eq_true_eq] at h2
          exact h2
    · rintro ⟨p, hp, hpid, hcond⟩
      unfold projectRetrieve
      cases hfind : (projectGetQueryset s u ProjAction.retrieve).find?
          (fun q => q.id = pid) with
      | none =>
          exfalso
          rw [List.find?_eq_none] at hfind
          refine hfind p ?_ (by simpa using hpid)
          rw [hq, List.mem_filter]
          refine ⟨hp, ?_⟩
          rcases hcond with h | h <;> simp [h]
      | some q =>
          have hmemf : q ∈ projectGetQueryset s u ProjAction.retrieve :=
            List.mem_of_find?_eq_some hfind
          rw [hq, List.mem_filter] at hmemf
          have hcq : q.authorId = u.id ∨ isMember s u.id q.id = true := by
            have h2 := hmemf.2
            simp only [Bool.or_eq_true, decide_eq_true_eq] at h2
            exact h2
          have hperm := contributorPerm_of_author_or_member s u q hAuth hcq
          simp [hAuth, projectObjectPerm, hperm]

/-- Claim C1 amended witness: the characterization evaluated for user 1 on
the base state. -/
theorem C1_amended_visibility_witness :
    alice.isAuthenticated = true ∧ alice.isStaff = false
  ∧ ((∀ p : Project, p ∈ projectList stBase alice ↔
        p ∈ stBase.projects ∧ p.authorId = alice.id)
    ∧ (∀ pid : Nat, projectRetrieve stBase alice pid = RetrieveOutcome.ok ↔
        ∃ p : Project, p ∈ stBase.projects ∧ p.id = pid ∧
          (p.authorId = alice.id ∨ isMember stBase alice.id p.id = true))) :=
  ⟨by decide, by decide,
   C1_amended_visibility stBase alice (by decide) (by decide)⟩

/-- Claim C2 is false on the code: stranger user 3 cannot see issue 10 in
any list (it is outside their visible set), yet `GET /issues/10/` answers
403 (`IssueViewSet.get_queryset` deliberately leaves detail routes
unfiltered and lets `IsProjectContributor` deny), not the 404 the claim
requires. -/
theorem C2_counterexample :
    issueList stBase dave = []
  ∧ issueRetrieve stBase dave iss10.id = RetrieveOutcome.forbidden :=
  ⟨by decide, by decide⟩

/-- Claim C2 amended: on the canonical `/issues/id/` route a non-staff
user gets 403 whenever the issue exists but `IsProjectContributor` denies
(existence is revealed), and 404 only when no such issue row exists; the
nested `/projects/pid/issues/iid/` route does return 404 for a principal
who is neither author nor member of the project, because there the project
lookup itself is scoped. -/
theorem C2_amended_issue_403 (s : St) (u : Principal)
    (hAuth : u.isAuthenticated = true) (hStaff : u.isStaff = false) :
    (∀ iid i, s.issues.find? (fun x => x.id = iid) = some i →
        isProjectContributorPerm s (some u) (PermObj.issueObj i) = false →
        issueRetrieve s u iid = RetrieveOutcome.forbidden)
  ∧ (∀ iid, s.issues.find? (fun x => x.id = iid) = none →
        issueRetrieve s u iid = RetrieveOutcome.notFound)
  ∧ (∀ pid iid,
        (∀ p, p ∈ s.projects → p.id = pid →
            p.authorId ≠ u.id ∧ isMember s u.id p.id = false) →
        projectNestedIssueGet s u pid iid = RetrieveOutcome.notFound) := by
  refine ⟨?_, ?_, ?_⟩
  · intro iid i hfind hperm
    unfold issueRetrieve
    rw [issueGetQueryset_retrieve_eq, hfind]
    simp [hAuth, hperm]
  · intro iid hfind
    unfold issueRetrieve
    rw [issueGetQueryset_retrieve_eq, hfind]
    simp [hAuth]
  · intro pid iid h
    unfold projectNestedIssueGet
    have hq := projectGetQueryset_nonlist_eq s u hAuth hStaff
      ProjAction.issueDetail (by simp)
    have hnone : (projectGetQueryset s u ProjAction.issueDetail).find?
        (fun p => p.id = pid) = none := by
      rw [hq, List.find?_eq_none]
      intro p hpmem hpid
      rw [List.mem_filter] at hpmem
      have hpid2 : p.id = pid := by simpa using hpid
      have hcon := h p hpmem.1 hpid2
      have h2 := hpmem.2
      simp only [Bool.or_eq_true, decide_eq_true_eq] at h2
      rcases h2 with h2 | h2
      · exact hcon.1 h2
      · rw [hcon.2] at h2
        exact absurd h2 (by simp)
    rw [hnone]
    simp [hAuth]

/-- Claim C2 amended witness: stranger user 3 gets 403 on the canonical
issue route, 404 for a nonexistent issue, and 404 on the nested project
route. -/
theorem C2_amended_issue_403_witness :
    stBase.issues.find? (fun x => x.id = iss10.id) = some iss10
  ∧ isProjectContributorPerm stBase (some dave) (PermObj.issueObj iss10)
      = false
  ∧ issueRetrieve stBase dave iss10.id = RetrieveOutcome.forbidden
  ∧ stBase.issues.find? (fun x => x.id = 99) = none
  ∧ issueRetrieve stBase dave 99 = RetrieveOutcome.notFound
  ∧ projectNestedIssueGet stBase dave prj1.id iss10.id
      = RetrieveOutcome.notFound := by
  refine ⟨by decide, by decide, ?_, by decide, ?_, ?_⟩
  · exact (C2_amended_issue_403 stBase dave (by decide) (by decide)).1
      iss10.id iss10 (by decide) (by decide)
  · exact (C2_amended_issue_403 stBase dave (by decide) (by decide)).2.1
      99 (by decide)
  · refine (C2_amended_issue_403 stBase dave (by decide) (by decide)).2.2
      prj1.id iss10.id ?_
    intro p hp hk
    have hp1 : p = prj1 := by simpa [stBase] using hp
    subst hp1
    exact ⟨by decide, by decide⟩

/-- Claim C3: immediately after a successful project creation a membership
row `(P, P.author)` exists (the two writes of
`ProjectWriteSerializer.create` form one transition, the transaction
boundary being configured outside src); removing the project author via
`remove_contributor` always fails (HTTP 400) with the ledger untouched;
a successful removal of any other user preserves the author's membership;
and adding a contributor never deletes an existing membership row. -/
theorem C3_author_membership_invariant :
    (∀ s reqU authorId pid,
      isMember (projectCreate s reqU authorId pid) authorId pid = true)
  ∧ (∀ s p target, target = p.authorId →
      removeContributor s p target = Except.error RemoveErr.cannotRemoveAuthor)
  ∧ (∀ s p target s1, removeContributor s p target = Except.ok s1 →
      isMember s p.authorId p.id = true → isMember s1 p.authorId p.id = true)
  ∧ (∀ s pid uid actor s1, addContributor s pid uid actor = Except.ok s1 →
      ∀ u0 p0, isMember s u0 p0 = true → isMember s1 u0 p0 = true) := by
  refine ⟨?_, ?_, ?_, ?_⟩
  · intro s reqU authorId pid
    simp only [projectCreate]
    split
    · next h => exact h
    · simp [isMember, List.any_append]
  · intro s p target h
    simp [removeContributor, h]
  · intro s p target s1 hok hmem
    unfold removeContributor at hok
    split at hok
    · exact absurd hok (by simp)
    · next hne =>
        split at hok
        · injection hok with hs1
          subst hs1
          simp only [isMember, List.any_eq_true] at hmem ⊢
          obtain ⟨m, hm, hcond⟩ := hmem
          refine ⟨m, ?_, hcond⟩
          simp only [List.mem_filter]
          refine ⟨hm, ?_⟩
          simp only [Bool.and_eq_true, decide_eq_true_eq] at hcond
          have hmu : m.userId ≠ target := by
            intro he
            exact hne (by rw [← he, hcond.1])
          simp [hmu]
        · exact absurd hok (by simp)
  · intro s pid uid actor s1 hok u0 p0 hmem
    unfold addContributor at hok
    split at hok
    · exact absurd hok (by simp)
    · unfold contributorInsert at hok
      split at hok
      · exact absurd hok (by simp)
      · injection hok with hs1
        subst hs1
        simp only [isMember, List.any_append]
        simp only [isMember] at hmem
        simp [hmem]

/-- Claim C3 witness: concrete runs of project creation, author-removal
rejection, non-author removal, and contributor addition on `stBase`. -/
theorem C3_author_membership_invariant_witness :
    isMember (projectCreate stBase 9 4 7) 4 7 = true
  ∧ removeContributor stBase prj1 1 = Except.error RemoveErr.cannotRemoveAuthor
  ∧ removeContributor stBase prj1 2 = Except.ok stAfterRemove
  ∧ isMember stAfterRemove prj1.authorId prj1.id = true
  ∧ addContributor stBase 1 3 1 = Except.ok stAfterAdd
  ∧ isMember stAfterAdd 2 1 = true :=
  ⟨C3_author_membership_invariant.1 stBase 9 4 7,
   C3_author_membership_invariant.2.1 stBase prj1 1 (by decide),
   rfl,
   C3_author_membership_invariant.2.2.1 stBase prj1 2 stAfterRemove
     rfl (by decide),
   rfl,
   C3_author_membership_invariant.2.2.2 stBase 1 3 1 stAfterAdd
     rfl 2 1 (by decide)⟩

/-- Claim C4 is false as a standing invariant: contributor user 2 saves
issue 11 (accepted — they are a member), then the project author removes
user 2's membership (allowed, user 2 is not the project author); issue 11
still exists while its author is no longer a member of its project. -/
theorem C4_counterexample :
    issueSave stBase issBob = Except.ok stWithBobIssue
  ∧ removeContributor stWithBobIssue prj1 2 = Except.ok stOrphan
  ∧ issBob ∈ stOrphan.issues
  ∧ issueAuthorIsContributor stOrphan issBob = false :=
  ⟨rfl, rfl, by decide, by decide⟩

/-- Claim C4 amended: the author-is-contributor condition is enforced at
**save time** on every save — `Issue.save` always runs `full_clean`, so a
save whose author is not currently a member of the project is rejected
with a ValidationError keyed `author` and persists nothing, and a save
whose author is a member appends exactly the new row — but it is not an
invariant over the lifetime of an issue: a later membership removal can
leave an existing issue whose author is no longer a member. -/
theorem C4_amended_save_time_check :
    (∀ (s : St) (i : Issue), issueAuthorIsContributor s i = false →
        issueSave s i = Except.error (SaveErr.validation "author"
          "L auteur doit etre contributeur du projet."))
  ∧ (∀ (s : St) (i : Issue), issueAuthorIsContributor s i = true →
        issueSave s i = Except.ok { s with issues := s.issues ++ [i] }) := by
  constructor <;> intro s i h <;> simp [issueSave, issueClean, h]

/-- Claim C4 amended witness: the rejected save of a non-member author
(user 3) and the accepted save of member author (user 2). -/
theorem C4_amended_save_time_check_witness :
    issueAuthorIsContributor stBase ⟨12, 1, 3⟩ = false
  ∧ issueSave stBase ⟨12, 1, 3⟩ = Except.error (SaveErr.validation "author"
      "L auteur doit etre contributeur du projet.")
  ∧ issueAuthorIsContributor stBase issBob = true
  ∧ issueSave stBase issBob
      = Except.ok { stBase with issues := stBase.issues ++ [issBob] } :=
  ⟨by decide,
   C4_amended_save_time_check.1 stBase ⟨12, 1, 3⟩ (by decide),
   by decide,
   C4_amended_save_time_check.2 stBase issBob (by decide)⟩

/-- Claim C5 (code bug): as written, `Comment.clean`'s first statement
`super.clean()` raises `AttributeError` on **every** call, so
`Comment.save` (which runs `full_clean`) fails with an uncaught
`AttributeError` for every comment — even one whose author is a
contributor, for which the claim (and the model's own docstring) says the
save must succeed; a contributor violation is likewise never converted to
the field-level ValidationError.  The last two conjuncts evaluate the
intended clean body at a concrete legal input to document the
divergence. -/
theorem C5_comment_save_always_raises :
    (∀ s c, commentSave s c
        = Except.error
            (SaveErr.attributeErr "type object has no attribute clean"))
  ∧ commentAuthorIsContributor stBase cmtNew = true
  ∧ commentSaveIntended stBase cmtNew
      = Except.ok { stBase with comments := stBase.comments ++ [cmtNew] } :=
  ⟨fun _ _ => rfl, by decide, rfl⟩

/-- Claim C6 is false on the racing path: two add-member requests for
user 3 on project 1 both pass `ContributorWriteSerializer.validate`
against the same initial ledger; the first INSERT succeeds, and the
loser's INSERT trips the `uniq_contributor_user_project` constraint and
raises `IntegrityError`, which this serializer — unlike the assignee
serializer — does not catch: the race surfaces as an unhandled crash, not
as the "already a member" ValidationError (the row count does stay 1). -/
theorem C6_counterexample :
    contributorValidate stBase 1 3 = Except.ok ()
  ∧ contributorInsert stBase 1 3 1 = Except.ok stAfterAdd
  ∧ contributorInsert stAfterAdd 1 3 1 = Except.error SaveErr.integrity
  ∧ memberRowCount stAfterAdd 3 1 = 1 :=
  ⟨rfl, rfl, rfl, by decide⟩

/-- Claim C6 amended: sequentially, a first add of `(u, p)` appends
exactly one row and a second add is rejected by `validate` with the
"already a member" ValidationError; under the check-then-insert race the
storage unique constraint still guarantees at most one row, but the losing
request fails with an **uncaught IntegrityError**, not the "already a
member" error. -/
theorem C6_amended_membership_uniqueness :
    (∀ (s : St) (pid uid actor : Nat), isMember s uid pid = false →
        addContributor s pid uid actor
          = Except.ok
              { s with memberships := s.memberships ++ [⟨uid, pid, actor⟩] })
  ∧ (∀ (s : St) (pid uid actor : Nat), isMember s uid pid = true →
        addContributor s pid uid actor
          = Except.error
              (SaveErr.validationMsg "Cet utilisateur est deja contributeur."))
  ∧ (∀ (s : St) (pid uid actor : Nat), memberRowCount s uid pid = 0 →
        memberRowCount
          { s with memberships := s.memberships ++ [⟨uid, pid, actor⟩] }
          uid pid = 1)
  ∧ (∀ (s : St) (pid uid a1 a2 : Nat) (s1 : St), isMember s uid pid = false →
        contributorInsert s pid uid a1 = Except.ok s1 →
        contributorValidate s pid uid = Except.ok ()
          ∧ contributorInsert s1 pid uid a2 = Except.error SaveErr.integrity)
    := by
  refine ⟨?_, ?_, ?_, ?_⟩
  · intro s pid uid actor h
    simp [addContributor, contributorValidate, contributorInsert, h]
  · intro s pid uid actor h
    simp [addContributor, contributorValidate, h]
  · intro s pid uid actor hcount
    simp only [memberRowCount, List.filter_append, List.length_append]
      at hcount ⊢
    rw [hcount]
    simp
  · intro s pid uid a1 a2 s1 hmem hok
    unfold contributorInsert at hok
    rw [hmem] at hok
    simp only [Bool.false_eq_true, if_false] at hok
    injection hok with hs1
    subst hs1
    refine ⟨by simp [contributorValidate, hmem], ?_⟩
    have hafter :
        isMember { s with memberships := s.memberships ++ [⟨uid, pid, a1⟩] }
          uid pid = true := by
      simp [isMember, List.any_append]
    simp [contributorInsert, hafter]

/-- Claim C6 amended witness: adding user 3 to project 1 once, twice
sequentially, and racing. -/
theorem C6_amended_membership_uniqueness_witness :
    isMember stBase 3 1 = false
  ∧ addContributor stBase 1 3 1 = Except.ok stAfterAdd
  ∧ isMember stAfterAdd 3 1 = true
  ∧ addContributor stAfterAdd 1 3 1
      = Except.error
          (SaveErr.validationMsg "Cet utilisateur est deja contributeur.")
  ∧ memberRowCount stBase 3 1 = 0
  ∧ memberRowCount stAfterAdd 3 1 = 1
  ∧ contributorValidate stBase 1 3 = Except.ok ()
  ∧ contributorInsert stAfterAdd 1 3 2 = Except.error SaveErr.integrity := by
  refine ⟨by decide, ?_, by decide, ?_, by decide, by decide, ?_⟩
  · exact C6_amended_membership_uniqueness.1 stBase 1 3 1 (by decide)
  · exact C6_amended_membership_uniqueness.2.1 stAfterAdd 1 3 1 (by decide)
  · exact C6_amended_membership_uniqueness.2.2.2 stBase 1 3 1 2 stAfterAdd
      (by decide) rfl

/-- Claim C7 is false on the code: user 2 is a contributor of project 1,
so per the claim they see comment 100 (authored by user 1) via the global
comment routes; in fact `CommentViewSet.get_queryset` scopes non-staff to
`author=user`, so the global list is empty and retrieve answers 404 —
only the nested issue route applies the transitive project rule. -/
theorem C7_counterexample :
    isMember stBase bob.id prj1.id = true
  ∧ cmt100.issueId = iss10.id
  ∧ iss10.projectId = prj1.id
  ∧ commentList stBase bob = []
  ∧ commentRetrieve stBase bob cmt100.id = RetrieveOutcome.notFound
  ∧ nestedCommentList stBase bob iss10.id = some [cmt100] :=
  ⟨by decide, by decide, by decide, by decide, by decide, rfl⟩

/-- Claim C7 amended: on the global `/comments/` routes, a non-staff user
sees (list) and can retrieve exactly the comments they authored — an
author-only scoping independent of project membership — while the
project-transitive visibility of the claim holds only on the nested
`/issues/iid/comments/` route, where a user passing
`IsProjectContributor` on the parent issue sees all of that issue's
comments. -/
theorem C7_amended_comment_scoping (s : St) (u : Principal)
    (hAuth : u.isAuthenticated = true) (hStaff : u.isStaff = false) :
    (∀ c : Comment, c ∈ commentList s u ↔ c ∈ s.comments ∧ c.authorId = u.id)
  ∧ (∀ cid : Nat, commentRetrieve s u cid = RetrieveOutcome.ok ↔
      ∃ c : Comment, c ∈ s.comments ∧ c.id = cid ∧ c.authorId = u.id)
  ∧ (∀ (iid : Nat) (i : Issue), s.issues.find? (fun x => x.id = iid) = some i →
      isProjectContributorPerm s (some u) (PermObj.issueObj i) = true →
      nestedCommentList s u iid
        = some (s.comments.filter (fun c => c.issueId = i.id))) := by
  have hqs : commentGetQueryset s u
      = s.comments.filter (fun c => c.authorId = u.id) := by
    simp [commentGetQueryset, hStaff]
  refine ⟨?_, ?_, ?_⟩
  · intro c
    simp [commentList, commentGetQueryset, hAuth, hStaff, List.mem_filter]
  · intro cid
    constructor
    · intro hok
      unfold commentRetrieve at hok
      cases hfind : (commentGetQueryset s u).find? (fun c => c.id = cid) with
      | none =>
          rw [hAuth] at hok
          rw [hfind] at hok
          simp at hok
      | some c =>
          have hmemf : c ∈ commentGetQueryset s u :=
            List.mem_of_find?_eq_some hfind
          have hpred := List.find?_some hfind
          rw [hqs, List.mem_filter] at hmemf
          exact ⟨c, hmemf.1, by simpa using hpred, by simpa using hmemf.2⟩
    · rintro ⟨c, hc, hcid, hauthor⟩
      unfold commentRetrieve
      cases hfind : (commentGetQueryset s u).find? (fun x => x.id = cid) with
      | none =>
          exfalso
          rw [List.find?_eq_none] at hfind
          refine hfind c ?_ (by simpa using hcid)
          rw [hqs, List.mem_filter]
          exact ⟨hc, by simp [hauthor]⟩
      | some q =>
          have hmemf : q ∈ commentGetQueryset s u :=
            List.mem_of_find?_eq_some hfind
          rw [hqs, List.mem_filter] at hmemf
          have hq2 : q.authorId = u.id := by simpa using hmemf.2
          have hperm : isAuthorOrStaffPerm (some u)
              (PermObj.commentObj q) = true := by
            simp [isAuthorOrStaffPerm, staffOrOwnerPerm, authorOwnerId,
              hAuth, hStaff, hq2]
          simp [hAuth, hperm]
  · intro iid i hfind hperm
    unfold nestedCommentList
    rw [issueGetQueryset_comments_eq, hfind]
    simp [hAuth, hperm]

/-- Claim C7 amended witness: user 1 (author of comment 100) on the base
state. -/
theorem C7_amended_comment_scoping_witness :
    alice.isAuthenticated = true ∧ alice.isStaff = false
  ∧ ((∀ c : Comment, c ∈ commentList stBase alice ↔
        c ∈ stBase.comments ∧ c.authorId = alice.id)
    ∧ (∀ cid : Nat, commentRetrieve stBase alice cid = RetrieveOutcome.ok ↔
        ∃ c : Comment, c ∈ stBase.comments ∧ c.id = cid
          ∧ c.authorId = alice.id)
    ∧ (∀ (iid : Nat) (i : Issue),
        stBase.issues.find? (fun x => x.id = iid) = some i →
        isProjectContributorPerm stBase (some alice) (PermObj.issueObj i)
          = true →
        nestedCommentList stBase alice iid
          = some (stBase.comments.filter (fun c => c.issueId = i.id)))) :=
  ⟨by decide, by decide,
   C7_amended_comment_scoping stBase alice (by decide) (by decide)⟩

/-- Claim C8: a staff principal passes every object-level permission
predicate in common/permissions.py, for every object shape (Project,
Issue, Comment, or unresolvable) and every method, and every per-action
object check of `ProjectViewSet.get_permissions`: the staff flag is tested
right after authentication and short-circuits all ownership and membership
logic. -/
theorem C8_staff_override (s : St) (u : Principal)
    (hAuth : u.isAuthenticated = true) (hStaff : u.isStaff = true) :
    (∀ ownerId, staffOrOwnerPerm (some u) ownerId = true)
  ∧ (∀ obj, isAuthorOrStaffPerm (some u) obj = true)
  ∧ (∀ m obj, isAuthorOrReadOnlyPerm (some u) m obj = true)
  ∧ (∀ obj, isProjectContributorPerm s (some u) obj = true)
  ∧ (∀ tid, isSelfOrAdminPerm (some u) tid = true)
  ∧ (∀ a g p, projectObjectPerm s u a g p = true) := by
  have hOwner : ∀ ownerId, staffOrOwnerPerm (some u) ownerId = true := by
    intro ownerId
    simp [staffOrOwnerPerm, hAuth, hStaff]
  have hAuthor : ∀ obj, isAuthorOrStaffPerm (some u) obj = true := by
    intro obj
    simp [isAuthorOrStaffPerm, hOwner]
  have hContrib : ∀ obj, isProjectContributorPerm s (some u) obj = true := by
    intro obj
    simp [isProjectContributorPerm, hAuth, hStaff]
  refine ⟨hOwner, hAuthor, ?_, hContrib, ?_, ?_⟩
  · intro m obj
    simp [isAuthorOrReadOnlyPerm, hAuthor]
  · intro tid
    simp [isSelfOrAdminPerm, hOwner]
  · intro a g p
    cases a <;> cases g <;>
      simp [projectObjectPerm, hAuthor, hContrib, hAuth]

/-- Claim C8 witness: the staff principal on the base state. -/
theorem C8_staff_override_witness :
    staffAdmin.isAuthenticated = true ∧ staffAdmin.isStaff = true
  ∧ ((∀ ownerId, staffOrOwnerPerm (some staffAdmin) ownerId = true)
    ∧ (∀ obj, isAuthorOrStaffPerm (some staffAdmin) obj = true)
    ∧ (∀ m obj, isAuthorOrReadOnlyPerm (some staffAdmin) m obj = true)
    ∧ (∀ obj, isProjectContributorPerm stBase (some staffAdmin) obj = true)
    ∧ (∀ tid, isSelfOrAdminPerm (some staffAdmin) tid = true)
    ∧ (∀ a g p, projectObjectPerm stBase staffAdmin a g p = true)) :=
  ⟨by decide, by decide,
   C8_staff_override stBase staffAdmin (by decide) (by decide)⟩

/-- Claim C9: a user write whose `birth_date` is null, in the future, or
implies an age under 15 is rejected with a ValidationError keyed
`birth_date` on both paths — the model save (`User.save` always runs
`full_clean`, hence `User.clean`) and the API serializer boundary
(`UserSerializer`). -/
theorem C9_birth_date_double_lock (b : Option MDate) (today : MDate)
    (h : b = none ∨ ∃ d, b = some d ∧
      (dateGt d today = true ∨ calculateAge d today < MIN_SIGNUP_AGE_YEARS)) :
    (∃ msg, userModelSave b today
        = Except.error (SaveErr.validation "birth_date" msg))
  ∧ (∃ msg, userSerializerCreate b today
        = Except.error (SaveErr.validation "birth_date" msg)) := by
  rcases h with hnone | ⟨d, hb, hd⟩
  · subst hnone
    exact ⟨⟨_, rfl⟩, ⟨_, rfl⟩⟩
  · subst hb
    by_cases hf : dateGt d today = true
    · refine ⟨⟨"La date de naissance ne peut pas etre dans le futur.", ?_⟩,
        ⟨"La date de naissance ne peut pas etre dans le futur.", ?_⟩⟩ <;>
        simp [userModelSave, userClean, userSerializerCreate,
          validate_birth_date_min_age, hf]
    · have hage : calculateAge d today < MIN_SIGNUP_AGE_YEARS := by
        rcases hd with h1 | h2
        · exact absurd h1 hf
        · exact h2
      refine ⟨⟨"Vous devez avoir au moins 15 ans pour vous inscrire.", ?_⟩,
        ⟨"Vous devez avoir au moins 15 ans pour vous inscrire.", ?_⟩⟩ <;>
        simp [userModelSave, userClean, userSerializerCreate,
          validate_birth_date_min_age, hf, hage]

/-- Claim C9 witness: a ten-year-old signing up on 2026-10-12 is rejected
on both paths. -/
theorem C9_birth_date_double_lock_witness :
    (some (⟨2016, 10, 12⟩ : MDate) = none ∨ ∃ d,
      some (⟨2016, 10, 12⟩ : MDate) = some d ∧
      (dateGt d ⟨2026, 10, 12⟩ = true
        ∨ calculateAge d ⟨2026, 10, 12⟩ < MIN_SIGNUP_AGE_YEARS))
  ∧ ((∃ msg, userModelSave (some ⟨2016, 10, 12⟩) ⟨2026, 10, 12⟩
        = Except.error (SaveErr.validation "birth_date" msg))
    ∧ (∃ msg, userSerializerCreate (some ⟨2016, 10, 12⟩) ⟨2026, 10, 12⟩
        = Except.error (SaveErr.validation "birth_date" msg))) :=
  ⟨Or.inr ⟨⟨2016, 10, 12⟩, rfl, Or.inr (by decide)⟩,
   C9_birth_date_double_lock (some ⟨2016, 10, 12⟩) ⟨2026, 10, 12⟩
     (Or.inr ⟨⟨2016, 10, 12⟩, rfl, Or.inr (by decide)⟩)⟩

/-- Claim C10: at most one assignment row per `(issue, user)`: a first add
succeeds and appends exactly one row; a duplicate sequential add is
rejected by `IssueAssigneeAddSerializer.validate` with a ValidationError
keyed `user`; and in the check-then-insert race, the loser's INSERT trips
the `uniq_issue_assignee` constraint and `create()` converts the
`IntegrityError` into the same ValidationError keyed `user` — never a
second row, never an unhandled IntegrityError. -/
theorem C10_assignee_uniqueness :
    (∀ (s : St) (i : Issue) (uid actor : Nat),
        isMember s uid i.projectId = true →
        isAssigned s i.id uid = false →
        addAssignee s i uid actor
          = Except.ok { s with assignees := s.assignees ++ [⟨i.id, uid, actor⟩] })
  ∧ (∀ (s : St) (i : Issue) (uid actor : Nat),
        isMember s uid i.projectId = true →
        isAssigned s i.id uid = true →
        addAssignee s i uid actor = Except.error (SaveErr.validation "user"
          "Cet utilisateur est deja assigne a cet issue."))
  ∧ (∀ (s : St) (i : Issue) (uid actor : Nat),
        assigneeRowCount s i.id uid = 0 →
        assigneeRowCount
          { s with assignees := s.assignees ++ [⟨i.id, uid, actor⟩] } i.id uid
          = 1)
  ∧ (∀ (s : St) (i : Issue) (uid a1 a2 : Nat) (s1 : St),
        isAssigned s i.id uid = false →
        assigneeCreate s i uid a1 = Except.ok s1 →
        assigneeCreate s1 i uid a2 = Except.error (SaveErr.validation "user"
          "Cet utilisateur est deja assigne a cet issue.")) := by
  refine ⟨?_, ?_, ?_, ?_⟩
  · intro s i uid actor hmem hdup
    simp [addAssignee, assigneeValidateUser, assigneeValidate, assigneeCreate,
      hmem, hdup]
  · intro s i uid actor hmem hdup
    simp [addAssignee, assigneeValidateUser, assigneeValidate, hmem, hdup]
  · intro s i uid actor hcount
    simp only [assigneeRowCount, List.filter_append, List.length_append]
      at hcount ⊢
    rw [hcount]
    simp
  · intro s i uid a1 a2 s1 hdup hok
    unfold assigneeCreate at hok
    rw [hdup] at hok
    simp only [Bool.false_eq_true, if_false] at hok
    injection hok with hs1
    subst hs1
    have hassigned :
        isAssigned { s with assignees := s.assignees ++ [⟨i.id, uid, a1⟩] }
          i.id uid = true := by
      simp [isAssigned, List.any_append]
    simp [assigneeCreate, hassigned]

/-- Claim C10 witness: assigning contributor 2 to issue 10 twice, both
sequentially and racing. -/
theorem C10_assignee_uniqueness_witness :
    isMember stBase 2 iss10.projectId = true
  ∧ isAssigned stBase iss10.id 2 = false
  ∧ addAssignee stBase iss10 2 1
      = Except.ok
          { stBase with assignees := stBase.assignees ++ [⟨iss10.id, 2, 1⟩] }
  ∧ assigneeRowCount stBase iss10.id 2 = 0
  ∧ assigneeRowCount
      { stBase with assignees := stBase.assignees ++ [⟨iss10.id, 2, 1⟩] }
      iss10.id 2 = 1
  ∧ assigneeCreate stBase iss10 2 1
      = Except.ok
          { stBase with assignees := stBase.assignees ++ [⟨iss10.id, 2, 1⟩] }
  ∧ assigneeCreate
      { stBase with assignees := stBase.assignees ++ [⟨iss10.id, 2, 1⟩] }
      iss10 2 3
      = Except.error (SaveErr.validation "user"
          "Cet utilisateur est deja assigne a cet issue.") :=
  ⟨by decide, by decide,
   C10_assignee_uniqueness.1 stBase iss10 2 1 (by decide) (by decide),
   by decide,
   C10_assignee_uniqueness.2.2.1 stBase iss10 2 1 (by decide),
   rfl,
   C10_assignee_uniqueness.2.2.2 stBase iss10 2 1 3
     { stBase with assignees := stBase.assignees ++ [⟨iss10.id, 2, 1⟩] }
     (by decide) rfl⟩

end SoftDesk
